import Mathlib

/-!
Shallow embedding of the Performance Analytics and KPI Tracker repository
(scripts/generate_project_data.py, scripts/validate_data.py,
scripts/create_database.py, scripts/etl_pipeline.py).

Conventions of the embedding:
* SQLite REAL values and Python / pandas floats are modelled as exact
  rationals; dates are modelled as integer day numbers (the sources only
  ever compare dates and take their differences in days).
* SQLite division yields NULL on a zero divisor, so SQL expressions that
  divide are Option-valued; pandas float division yields infinities or NaN
  on a zero divisor, modelled by the PFloat type below.
* Console output and file mechanics are out of scope; what a script prints
  is dropped, what it computes and returns is embedded.
-/

namespace KPI

/-- Rounding half-up to 2 decimal places over exact rationals: the embedding of
SQLite ROUND(x, 2) in the kpi_metrics view (create_database.py) and of pandas
Series.round(2) in the ETL transform step (etl_pipeline.py).  Tie-breaking
differences between the two hosts live below the resolution of this
rational model and no theorem in this file depends on a tie. -/
def round2 (q : ℚ) : ℚ := ((⌊q * 100 + 1/2⌋ : ℤ) : ℚ) / 100

/-- Python int() applied to an exact rational: truncation toward zero
(used for tasks_completed and actual_hours in generate_project_data.py). -/
def pyInt (q : ℚ) : ℤ := if 0 ≤ q then ⌊q⌋ else -⌊-q⌋

/-- SQLite REAL division: x / y is NULL when y = 0 (SQLite propagates NULL
instead of raising; there is no explicit guard in the view source). -/
def sdiv (x y : ℚ) : Option ℚ := if y = 0 then none else some (x / y)

/-- SQLite INTEGER division: truncating division, NULL when the divisor is 0.
In the kpi_metrics view, Hours_Variance_Pct divides the INTEGER columns
Actual_Hours - Planned_Hours by Planned_Hours, so it is integer division. -/
def sdivInt (x y : ℤ) : Option ℤ := if y = 0 then none else some (Int.tdiv x y)

/-- Value of a pandas float cell: a finite rational, +inf, -inf, or NaN. -/
inductive PFloat
  | num (q : ℚ)
  | posInf
  | negInf
  | nan
deriving DecidableEq

/-- pandas / numpy float division: a finite quotient when the divisor is
nonzero; x / 0 is +inf for x > 0, -inf for x < 0, and NaN for 0 / 0.
No exception is raised and the transform step has no explicit guard. -/
def pdiv (x y : ℚ) : PFloat :=
  if y = 0 then
    if 0 < x then .posInf else if x < 0 then .negInf else .nan
  else .num (x / y)

/-- Multiplication of a pandas float by a rational constant. -/
def PFloat.mulC (v : PFloat) (c : ℚ) : PFloat :=
  match v with
  | .num q => .num (q * c)
  | .posInf => if 0 < c then .posInf else if c < 0 then .negInf else .nan
  | .negInf => if 0 < c then .negInf else if c < 0 then .posInf else .nan
  | .nan => .nan

/-- pandas Series.round(2) on a float cell: rounds finite values, and leaves
infinities and NaN unchanged. -/
def PFloat.round2dp : PFloat → PFloat
  | .num q => .num (round2 q)
  | v => v

/-- The finite content of a pandas float cell, if any. -/
def PFloat.toOptionRat : PFloat → Option ℚ
  | .num q => some q
  | _ => none

/-- One Project record, with the field set shared by the generator output,
the CSV files, and the projects table (section 3 of the specification). -/
structure ProjectRecord where
  project_id : ℤ
  department : String
  project_name : String
  manager : String
  start_date : ℤ
  end_date : ℤ
  planned_cost : ℚ
  actual_cost : ℚ
  planned_completion : ℤ
  actual_completion : ℤ
  status : String
  tasks_total : ℤ
  tasks_completed : ℤ
  planned_hours : ℤ
  actual_hours : ℤ
deriving DecidableEq

/-- The calculated columns of the kpi_metrics view
(create_database.py, CREATE VIEW kpi_metrics). -/
structure KpiRow where
  cost_variance : ℚ
  cost_variance_pct : Option ℚ
  duration_days : ℤ
  completion_variance : ℤ
  task_completion_pct : Option ℚ
  hours_variance : ℤ
  hours_variance_pct : Option ℚ
  delivery_status : String
  budget_status : String
deriving DecidableEq

/-- The kpi_metrics view of create_database.py, one row per project row.
Each field is the direct translation of the corresponding SELECT expression;
note that the Budget_Status CASE tests the unrounded percentage
ABS((Actual_Cost - Planned_Cost) / Planned_Cost * 100), not the rounded
Cost_Variance_Pct column. -/
def kpiMetrics (r : ProjectRecord) : KpiRow where
  cost_variance := r.actual_cost - r.planned_cost
  cost_variance_pct :=
    (sdiv (r.actual_cost - r.planned_cost) r.planned_cost).map (fun q => round2 (q * 100))
  duration_days := r.end_date - r.start_date
  completion_variance := r.actual_completion - r.planned_completion
  task_completion_pct :=
    (sdiv ((r.tasks_completed : ℚ) * 100) (r.tasks_total : ℚ)).map round2
  hours_variance := r.actual_hours - r.planned_hours
  hours_variance_pct :=
    (sdivInt (r.actual_hours - r.planned_hours) r.planned_hours).map
      (fun z => round2 ((z : ℚ) * 100))
  delivery_status :=
    if r.status = "Completed" ∧ r.actual_completion = 100 then "On-Time"
    else if r.status = "Delayed" then "Delayed"
    else "In-Progress"
  budget_status :=
    match sdiv (r.actual_cost - r.planned_cost) r.planned_cost with
    | some q =>
        if |q * 100| ≤ 10 then "Within Budget"
        else if r.planned_cost < r.actual_cost then "Over Budget"
        else "Under Budget"
    | none =>
        if r.planned_cost < r.actual_cost then "Over Budget"
        else "Under Budget"

/-- The columns added by transform_data in etl_pipeline.py. -/
structure TransformedCols where
  delay_days : ℤ
  cost_variance_pct : PFloat
  on_time : Bool
  completion_rate_pct : PFloat
deriving DecidableEq

/-- The transform step of the ETL pipeline (etl_pipeline.py, transform_data):
Delay_Days, then Cost_Variance_% and Completion_Rate_% computed by pandas
float division and rounded to 2 decimals in a second assignment, and the
boolean On_Time column. -/
def transform_data (r : ProjectRecord) : TransformedCols where
  delay_days := r.end_date - r.start_date
  cost_variance_pct :=
    ((pdiv (r.actual_cost - r.planned_cost) r.planned_cost).mulC 100).round2dp
  on_time := r.planned_completion ≤ r.actual_completion
  completion_rate_pct :=
    ((pdiv (r.actual_completion : ℚ) (r.planned_completion : ℚ)).mulC 100).round2dp

/-- Evaluation rule for round2 at concrete arguments. -/
theorem round2_eval {q : ℚ} {n : ℤ} (h1 : (n : ℚ) ≤ q * 100 + 1/2)
    (h2 : q * 100 + 1/2 < n + 1) : round2 q = (n : ℚ) / 100 := by
  unfold round2
  rw [Int.floor_eq_iff.mpr ⟨h1, h2⟩]

/-- A representative well-formed record: Marketing project, planned and actual
cost 10000, completed on time. -/
def sampleRec : ProjectRecord where
  project_id := 1001
  department := "Marketing"
  project_name := "Q1 Product Launch"
  manager := "John Smith"
  start_date := 0
  end_date := 30
  planned_cost := 10000
  actual_cost := 10000
  planned_completion := 100
  actual_completion := 100
  status := "Completed"
  tasks_total := 40
  tasks_completed := 40
  planned_hours := 500
  actual_hours := 500

/-- The boundary record of the specification: planned cost 1000, actual 1100. -/
def recBoundary : ProjectRecord := { sampleRec with planned_cost := 1000, actual_cost := 1100 }

/-- A record whose raw cost variance is 10.004 percent: the rounded
Cost_Variance_Pct column is 10.0 but the raw value exceeds the band. -/
def recRawAboveBand : ProjectRecord :=
  { sampleRec with planned_cost := 100000, actual_cost := 110004 }

/-- A record with planned_cost = 0, as externally supplied data could contain. -/
def recZeroPlanned : ProjectRecord := { sampleRec with planned_cost := 0, actual_cost := 100 }

/-- A completed record whose actual completion is only 90. -/
def recCompleted90 : ProjectRecord := { sampleRec with actual_completion := 90 }

/-- C1: for every record with planned_cost > 0, the Cost_Variance_Pct of the
kpi_metrics view and the Cost_Variance_% of the ETL transform step coincide:
both equal the same rational, the 2-decimal rounding of
(actual_cost - planned_cost) / planned_cost * 100. -/
theorem cost_variance_pct_view_transform_agree (r : ProjectRecord)
    (h : 0 < r.planned_cost) :
    ((transform_data r).cost_variance_pct).toOptionRat = (kpiMetrics r).cost_variance_pct ∧
    (kpiMetrics r).cost_variance_pct =
      some (round2 ((r.actual_cost - r.planned_cost) / r.planned_cost * 100)) := by
  have hne : r.planned_cost ≠ 0 := ne_of_gt h
  refine ⟨?_, ?_⟩ <;>
    simp [transform_data, kpiMetrics, sdiv, pdiv, hne, PFloat.mulC, PFloat.round2dp,
      PFloat.toOptionRat, div_mul_eq_mul_div]

theorem cost_variance_pct_view_transform_agree_witness :
    (0 : ℚ) < 1000 ∧
    ((transform_data recBoundary).cost_variance_pct).toOptionRat =
      (kpiMetrics recBoundary).cost_variance_pct :=
  ⟨by norm_num,
   (cost_variance_pct_view_transform_agree recBoundary (by norm_num [recBoundary, sampleRec])).1⟩

/-- C2: the division-by-zero behaviour of the two call sites at planned_cost = 0.
The ETL transform step has no explicit guard and pandas division produces
+infinity (not null and not NaN), while the view produces NULL only through
implicit SQLite division semantics. -/
theorem transform_divzero_yields_posInf :
    (transform_data recZeroPlanned).cost_variance_pct = PFloat.posInf ∧
    PFloat.posInf ≠ PFloat.nan ∧
    (kpiMetrics recZeroPlanned).cost_variance_pct = none := by
  refine ⟨?_, by decide, ?_⟩ <;>
    simp [transform_data, kpiMetrics, sdiv, pdiv, PFloat.mulC, PFloat.round2dp,
      recZeroPlanned, sampleRec]

/-- The rounded Cost_Variance_Pct column of the view, for a nonzero planned
cost, is the 2-decimal rounding of the raw percentage. -/
theorem kpi_cvp_eq (r : ProjectRecord) (h : r.planned_cost ≠ 0) :
    (kpiMetrics r).cost_variance_pct =
      some (round2 ((r.actual_cost - r.planned_cost) / r.planned_cost * 100)) := by
  simp [kpiMetrics, sdiv, h]

/-- C5 counterexample: a record whose rounded Cost_Variance_Pct column is
exactly 10.0, hence inside the band of the claim, which the view nevertheless
classifies Over Budget, because the Budget_Status CASE tests the unrounded
percentage 10.004. -/
theorem budget_band_counterexample :
    (kpiMetrics recRawAboveBand).cost_variance_pct = some 10 ∧ |(10 : ℚ)| ≤ 10 ∧
    (kpiMetrics recRawAboveBand).budget_status = "Over Budget" := by
  have e : (recRawAboveBand.actual_cost - recRawAboveBand.planned_cost) /
      recRawAboveBand.planned_cost * 100 = (10.004 : ℚ) := by
    norm_num [recRawAboveBand, sampleRec]
  refine ⟨?_, by norm_num, ?_⟩
  · rw [kpi_cvp_eq recRawAboveBand (by norm_num [recRawAboveBand, sampleRec]), e,
      round2_eval (n := 1000) (by norm_num) (by norm_num)]
    norm_num
  · have hb : ¬ |((110004 : ℚ) - 100000) / 100000 * 100| ≤ 10 := by
      rw [abs_of_nonneg (by norm_num)]
      norm_num
    simp [kpiMetrics, sdiv, recRawAboveBand, sampleRec, hb]
    norm_num

/-- C5 as amended: for every record with positive planned cost, Budget_Status
is Within Budget exactly when the unrounded percentage
(actual_cost - planned_cost) / planned_cost * 100 lies in [-10, 10] (the
boundary being inclusive), Over Budget exactly when it lies outside the band
and actual_cost > planned_cost, and Under Budget in the remaining case; the
band is tested on the unrounded value, not on the rounded Cost_Variance_Pct
column. -/
theorem budget_status_unrounded_band (r : ProjectRecord) (h : 0 < r.planned_cost) :
    ((kpiMetrics r).budget_status = "Within Budget" ↔
      |(r.actual_cost - r.planned_cost) / r.planned_cost * 100| ≤ 10) ∧
    ((kpiMetrics r).budget_status = "Over Budget" ↔
      10 < |(r.actual_cost - r.planned_cost) / r.planned_cost * 100| ∧
        r.planned_cost < r.actual_cost) ∧
    ((kpiMetrics r).budget_status = "Under Budget" ↔
      10 < |(r.actual_cost - r.planned_cost) / r.planned_cost * 100| ∧
        ¬ r.planned_cost < r.actual_cost) := by
  have hne : r.planned_cost ≠ 0 := ne_of_gt h
  by_cases hb : |(r.actual_cost - r.planned_cost) / r.planned_cost * 100| ≤ 10
  · simp [kpiMetrics, sdiv, hne, hb]
  · by_cases hc : r.planned_cost < r.actual_cost <;>
      simp [kpiMetrics, sdiv, hne, hb, hc, lt_of_not_le hb]

theorem budget_status_unrounded_band_witness :
    (kpiMetrics recBoundary).budget_status = "Within Budget" ∧
    (kpiMetrics recBoundary).cost_variance_pct = some 10 := by
  constructor
  · refine (budget_status_unrounded_band recBoundary
      (by norm_num [recBoundary, sampleRec])).1.mpr ?_
    have e : (recBoundary.actual_cost - recBoundary.planned_cost) /
        recBoundary.planned_cost * 100 = (10 : ℚ) := by
      norm_num [recBoundary, sampleRec]
    rw [e, abs_of_nonneg (by norm_num)]
  · have e : (recBoundary.actual_cost - recBoundary.planned_cost) /
        recBoundary.planned_cost * 100 = (10 : ℚ) := by
      norm_num [recBoundary, sampleRec]
    rw [kpi_cvp_eq recBoundary (by norm_num [recBoundary, sampleRec]), e,
      round2_eval (n := 1000) (by norm_num) (by norm_num)]
    norm_num

/-- The fixed status enumeration of the schema. -/
def validStatuses : List String :=
  ["Not Started", "In Progress", "Completed", "Delayed", "On Hold"]

/-- The CHECK constraint set of the projects table
(create_database.py, CREATE TABLE projects): the literal conjunction of the
six CHECK clauses.  Both cost checks are non-strict, and there is no clause
about the dates or the hours columns. -/
def projectChecks (r : ProjectRecord) : Prop :=
  0 ≤ r.planned_cost ∧ 0 ≤ r.actual_cost ∧
  (0 ≤ r.planned_completion ∧ r.planned_completion ≤ 100) ∧
  (0 ≤ r.actual_completion ∧ r.actual_completion ≤ 100) ∧
  r.tasks_completed ≤ r.tasks_total ∧ r.status ∈ validStatuses

/-- The per-row invariants of section 3 of the specification that C4 lists:
strict date order, strictly positive costs, completion bounds, task bound,
hours bounds, and status membership. -/
def rowInvariants (r : ProjectRecord) : Prop :=
  r.start_date < r.end_date ∧ 0 < r.planned_cost ∧ 0 < r.actual_cost ∧
  (0 ≤ r.planned_completion ∧ r.planned_completion ≤ 100) ∧
  (0 ≤ r.actual_completion ∧ r.actual_completion ≤ 100) ∧
  r.tasks_completed ≤ r.tasks_total ∧
  0 < r.planned_hours ∧ 0 ≤ r.actual_hours ∧ r.status ∈ validStatuses

/-- A row the CHECK set accepts although it violates four of the section 3
invariants: zero planned cost, end date equal to start date, zero planned
hours and negative actual hours. -/
def recCheckGap : ProjectRecord :=
  { sampleRec with
    planned_cost := 0
    actual_cost := 1
    start_date := 5
    end_date := 5
    planned_hours := 0
    actual_hours := -1 }

/-- C4 counterexample: the CHECK set of the projects table accepts a row that
violates the section 3 invariants, so the constraint set does not mirror
them. -/
theorem checks_weaker_than_invariants :
    projectChecks recCheckGap ∧ ¬ rowInvariants recCheckGap := by
  constructor
  · refine ⟨?_, ?_, ⟨?_, ?_⟩, ⟨?_, ?_⟩, ?_, ?_⟩ <;>
      norm_num [recCheckGap, sampleRec, validStatuses]
  · intro hinv
    have h := hinv.2.1
    norm_num [recCheckGap, sampleRec] at h

/-- C4 as amended: the CHECK set is implied by the section 3 invariants
(every row satisfying them is accepted), but it is strictly weaker: it does
not enforce end_date > start_date, strict cost positivity, or any bound on
the hours columns. -/
theorem invariants_imply_checks (r : ProjectRecord) (h : rowInvariants r) :
    projectChecks r := by
  obtain ⟨_, h2, h3, h4, h5, h6, _, _, h9⟩ := h
  exact ⟨le_of_lt h2, le_of_lt h3, h4, h5, h6, h9⟩

theorem invariants_imply_checks_witness : projectChecks sampleRec :=
  invariants_imply_checks sampleRec
    (by refine ⟨?_, ?_, ?_, ⟨?_, ?_⟩, ⟨?_, ?_⟩, ?_, ?_, ?_, ?_⟩ <;>
      norm_num [sampleRec, validStatuses])

/-- C6: Delivery_Status of the view is On-Time exactly for completed records at
100 percent actual completion, Delayed exactly for records with status
Delayed, and In-Progress in every remaining case; in particular a Completed
record at 90 percent is classified In-Progress. -/
theorem delivery_status_classification :
    (∀ r : ProjectRecord,
      ((kpiMetrics r).delivery_status = "On-Time" ↔
        r.status = "Completed" ∧ r.actual_completion = 100) ∧
      ((kpiMetrics r).delivery_status = "Delayed" ↔ r.status = "Delayed") ∧
      ((kpiMetrics r).delivery_status = "In-Progress" ↔
        ¬(r.status = "Completed" ∧ r.actual_completion = 100) ∧ r.status ≠ "Delayed")) ∧
    (kpiMetrics recCompleted90).delivery_status = "In-Progress" := by
  constructor
  · intro r
    by_cases h1 : r.status = "Completed" ∧ r.actual_completion = 100
    · simp [kpiMetrics, h1]
    · by_cases h2 : r.status = "Delayed" <;> simp [kpiMetrics, h1, h2]
  · simp [kpiMetrics, recCompleted90, sampleRec]

/-- The status roll of generate_realistic_project
(generate_project_data.py): the weighted if / elif chain over the five
buckets, returning (status, planned_completion, actual_completion,
tasks_completed).  t is the drawn tasks_total; aip, adl and aoh are the
actual_completion draws of the In Progress, Delayed and On Hold buckets;
tasks_completed is int(tasks_total * (actual_completion / 100)). -/
def statusBucket (t : ℤ) (s : ℚ) (aip adl aoh : ℤ) : String × ℤ × ℤ × ℤ :=
  if s < 0.40 then ("Completed", 100, 100, t)
  else if s < 0.75 then ("In Progress", 100, aip, pyInt ((t : ℚ) * ((aip : ℚ) / 100)))
  else if s < 0.85 then ("Delayed", 100, adl, pyInt ((t : ℚ) * ((adl : ℚ) / 100)))
  else if s < 0.95 then ("Not Started", 100, 0, 0)
  else ("On Hold", 100, aoh, pyInt ((t : ℚ) * ((aoh : ℚ) / 100)))

/-- One call of generate_realistic_project (generate_project_data.py), with
the random draws passed in explicitly: c the drawn start day, d the drawn
duration in days, p the drawn planned cost, v the drawn cost variance factor
(uniform in [-0.15, 0.20]), t the drawn tasks_total, s the status roll,
aip / adl / aoh the bucket completion draws, g the drawn planned hours and w
the drawn hours variance factor. -/
def generate_realistic_project (dept nm mg : String) (i c d p : ℤ) (v : ℚ)
    (t : ℤ) (s : ℚ) (aip adl aoh : ℤ) (g : ℤ) (w : ℚ) : ProjectRecord :=
  let b := statusBucket t s aip adl aoh
  { project_id := i
    department := dept
    project_name := nm
    manager := mg
    start_date := c
    end_date := c + d
    planned_cost := (p : ℚ)
    actual_cost := round2 ((p : ℚ) * (1 + v))
    planned_completion := b.2.1
    actual_completion := b.2.2.1
    status := b.1
    tasks_total := t
    tasks_completed := b.2.2.2
    planned_hours := g
    actual_hours := pyInt ((g : ℚ) * (1 + w)) }

/-- pyInt on a nonnegative rational is the floor. -/
theorem pyInt_of_nonneg {q : ℚ} (h : 0 ≤ q) : pyInt q = ⌊q⌋ := by
  unfold pyInt
  rw [if_pos h]

/-- The truncated task count int(t * (a / 100)) never exceeds t
for 0 ≤ a ≤ 100 and 0 ≤ t. -/
theorem pyInt_tasks_le {t a : ℤ} (ht : 0 ≤ t) (ha : 0 ≤ a) (hb : a ≤ 100) :
    pyInt ((t : ℚ) * ((a : ℚ) / 100)) ≤ t := by
  have ht' : (0 : ℚ) ≤ (t : ℚ) := by exact_mod_cast ht
  have ha' : (0 : ℚ) ≤ (a : ℚ) := by exact_mod_cast ha
  have hq : (0 : ℚ) ≤ (t : ℚ) * ((a : ℚ) / 100) := by positivity
  rw [pyInt_of_nonneg hq]
  have hle : (t : ℚ) * ((a : ℚ) / 100) ≤ (t : ℚ) := by
    have h1 : (a : ℚ) / 100 ≤ 1 := by
      rw [div_le_one (by norm_num)]
      exact_mod_cast hb
    calc (t : ℚ) * ((a : ℚ) / 100) ≤ (t : ℚ) * 1 := by
          exact mul_le_mul_of_nonneg_left h1 ht'
    _ = (t : ℚ) := mul_one _
  calc ⌊(t : ℚ) * ((a : ℚ) / 100)⌋ ≤ ⌊(t : ℚ)⌋ := Int.floor_le_floor hle
  _ = t := Int.floor_intCast t

/-- round2 of a rational at least one half is positive. -/
theorem round2_pos {q : ℚ} (h : 1/2 ≤ q) : 0 < round2 q := by
  unfold round2
  have hf : (50 : ℤ) ≤ ⌊q * 100 + 1/2⌋ := by
    rw [Int.le_floor]
    push_cast
    linarith
  have hf' : (50 : ℚ) ≤ ((⌊q * 100 + 1/2⌋ : ℤ) : ℚ) := by exact_mod_cast hf
  linarith

/-- C9: postconditions of generate_realistic_project, for every status
bucket and every random draw within the configured ranges (every department
configuration draws a duration of at least 14 days and a planned cost of at
least 10000, so the hypotheses 1 ≤ d and 1 ≤ p cover all of them; the cost
variance draw is uniform in [-0.15, 0.20] and the bucket completion draws in
[50, 95], [70, 90] and [20, 60]): tasks_completed ≤ tasks_total, both
completion fields lie in [0, 100], end_date > start_date and
actual_cost > 0. -/
theorem generator_postconditions (dept nm mg : String) (i c d p : ℤ) (v : ℚ)
    (t : ℤ) (s : ℚ) (aip adl aoh : ℤ) (g : ℤ) (w : ℚ) (r : ProjectRecord)
    (hd : 1 ≤ d) (hp : 1 ≤ p) (hv : -0.15 ≤ v) (ht : 0 ≤ t)
    (h1 : 50 ≤ aip) (h2 : aip ≤ 95) (h3 : 70 ≤ adl) (h4 : adl ≤ 90)
    (h5 : 20 ≤ aoh) (h6 : aoh ≤ 60)
    (hr : r = generate_realistic_project dept nm mg i c d p v t s aip adl aoh g w) :
    r.tasks_completed ≤ r.tasks_total ∧
    (0 ≤ r.planned_completion ∧ r.planned_completion ≤ 100) ∧
    (0 ≤ r.actual_completion ∧ r.actual_completion ≤ 100) ∧
    r.start_date < r.end_date ∧ 0 < r.actual_cost := by
  subst hr
  have hcost : 0 < round2 ((p : ℚ) * (1 + v)) := by
    apply round2_pos
    have hp' : (1 : ℚ) ≤ (p : ℚ) := by exact_mod_cast hp
    nlinarith
  have hdate : c < c + d := by omega
  simp only [generate_realistic_project, statusBucket]
  split_ifs with hs1 hs2 hs3 hs4 <;> dsimp only <;>
    refine ⟨?_, by norm_num, ⟨by omega, by omega⟩, hdate, hcost⟩
  · exact le_refl t
  · exact pyInt_tasks_le ht (by omega) (by omega)
  · exact pyInt_tasks_le ht (by omega) (by omega)
  · exact le_trans (le_refl 0) ht
  · exact pyInt_tasks_le ht (by omega) (by omega)

/-- A concrete generator call: the Completed bucket with zero variance
draws. -/
def genSample : ProjectRecord :=
  generate_realistic_project ("Marketing") ("Q1 Product Launch") ("John Smith")
    1001 0 30 10000 0 40 0 70 80 40 500 0

theorem generator_postconditions_witness :
    genSample.tasks_completed ≤ genSample.tasks_total ∧
    (0 ≤ genSample.planned_completion ∧ genSample.planned_completion ≤ 100) ∧
    (0 ≤ genSample.actual_completion ∧ genSample.actual_completion ≤ 100) ∧
    genSample.start_date < genSample.end_date ∧ 0 < genSample.actual_cost :=
  generator_postconditions ("Marketing") ("Q1 Product Launch") ("John Smith")
    1001 0 30 10000 0 40 0 70 80 40 500 0 genSample
    (by norm_num) (by norm_num) (by norm_num) (by norm_num) (by norm_num)
    (by norm_num) (by norm_num) (by norm_num) (by norm_num) (by norm_num) rfl

/-- C10: every record produced by generate_realistic_project has
planned_completion exactly 100, in every status bucket; consequently the
On_Time predicate of the ETL transform step (actual_completion greater than
or equal to planned_completion) holds for a generated record exactly when its
actual_completion equals 100. -/
theorem generator_planned_completion (dept nm mg : String) (i c d p : ℤ) (v : ℚ)
    (t : ℤ) (s : ℚ) (aip adl aoh : ℤ) (g : ℤ) (w : ℚ) (r : ProjectRecord)
    (h2 : aip ≤ 95) (h4 : adl ≤ 90) (h6 : aoh ≤ 60)
    (hr : r = generate_realistic_project dept nm mg i c d p v t s aip adl aoh g w) :
    r.planned_completion = 100 ∧
    ((transform_data r).on_time = true ↔ r.actual_completion = 100) := by
  subst hr
  simp only [generate_realistic_project, statusBucket, transform_data]
  split_ifs with hs1 hs2 hs3 hs4 <;>
    refine ⟨rfl, ?_⟩ <;> simp <;> omega

theorem generator_planned_completion_witness :
    genSample.planned_completion = 100 ∧
    ((transform_data genSample).on_time = true ↔ genSample.actual_completion = 100) :=
  generator_planned_completion ("Marketing") ("Q1 Product Launch") ("John Smith")
    1001 0 30 10000 0 40 0 70 80 40 500 0 genSample
    (by norm_num) (by norm_num) (by norm_num) rfl

/-- Append an element to a list when it is not yet present. -/
def addElem {α : Type} [DecidableEq α] (acc : List α) (x : α) : List α :=
  if x ∈ acc then acc else acc ++ [x]

/-- First-occurrence de-duplication of a list, the embedding of pandas
DataFrame.drop_duplicates (and, on names, of the phrase "distinct values
observed"). -/
def distinctList {α : Type} [DecidableEq α] (l : List α) : List α :=
  l.foldl addElem []

/-- The Email column synthesized by the loader:
manager.lower().replace(" ", ".") + "@company.com". -/
def managerEmail (m : String) : String :=
  (m.toLower.replace (" ") (".")) ++ "@company.com"

/-- INSERT OR IGNORE INTO managers (Manager_Name, Department, Email): the
managers table has UNIQUE on Manager_Name alone (create_database.py), so a
row is ignored exactly when the name is already present, regardless of the
department. -/
def insertOrIgnoreManager (tbl : List (String × String × String)) (m dp : String) :
    List (String × String × String) :=
  if tbl.any (fun t => t.1 = m) then tbl else tbl ++ [(m, dp, managerEmail m)]

/-- The (Manager, Department) projection of one CSV file. -/
def pairsOf (f : List ProjectRecord) : List (String × String) :=
  f.map (fun r => (r.manager, r.department))

/-- The manager-loading loop of create_database.py: for each CSV file, take
the drop_duplicates projection of (Manager, Department) and INSERT OR IGNORE
each pair into the managers table, starting from the empty table of a fresh
database. -/
def loadManagers (files : List (List ProjectRecord)) : List (String × String × String) :=
  files.foldl
    (fun tbl f =>
      (distinctList (pairsOf f)).foldl (fun tb q => insertOrIgnoreManager tb q.1 q.2) tbl)
    []

/-- COUNT(*) FROM managers after the load. -/
def managersCount (files : List (List ProjectRecord)) : ℕ := (loadManagers files).length

/-- The Manager_Name column of the managers table. -/
def tblNames (tbl : List (String × String × String)) : List String :=
  tbl.map (fun t => t.1)

theorem tblNames_insert (tbl : List (String × String × String)) (m dp : String) :
    tblNames (insertOrIgnoreManager tbl m dp) = addElem (tblNames tbl) m := by
  unfold insertOrIgnoreManager addElem
  by_cases h : m ∈ tblNames tbl
  · obtain ⟨t, ht, he⟩ := List.mem_map.mp h
    rw [if_pos, if_pos h]
    exact List.any_eq_true.mpr ⟨t, ht, by simp [he]⟩
  · rw [if_neg, if_neg h]
    · simp [tblNames]
    · intro hc
      obtain ⟨t, ht, he⟩ := List.any_eq_true.mp hc
      exact h (List.mem_map.mpr ⟨t, ht, by simpa using he⟩)

theorem addElem_toFinset {α : Type} [DecidableEq α] (acc : List α) (x : α) :
    (addElem acc x).toFinset = insert x acc.toFinset := by
  unfold addElem
  by_cases h : x ∈ acc
  · rw [if_pos h]
    exact (Finset.insert_eq_self.mpr (List.mem_toFinset.mpr h)).symm
  · rw [if_neg h]
    ext y
    simp only [List.toFinset_append, List.toFinset_cons, List.toFinset_nil,
      Finset.mem_union, Finset.mem_insert, List.mem_toFinset, Finset.not_mem_empty,
      or_false]
    tauto

theorem addElem_nodup {α : Type} [DecidableEq α] (acc : List α) (x : α)
    (h : acc.Nodup) : (addElem acc x).Nodup := by
  unfold addElem
  by_cases hx : x ∈ acc
  · rwa [if_pos hx]
  · rw [if_neg hx]
    simp [List.nodup_append, h, hx]

theorem foldl_addElem_toFinset {α : Type} [DecidableEq α] (l : List α) :
    ∀ acc : List α, (l.foldl addElem acc).toFinset = acc.toFinset ∪ l.toFinset := by
  induction l with
  | nil => intro acc; simp
  | cons x xs ih =>
      intro acc
      rw [List.foldl_cons, ih (addElem acc x), addElem_toFinset]
      ext y
      simp only [List.toFinset_cons, Finset.mem_union, Finset.mem_insert,
        List.mem_toFinset]
      tauto

theorem foldl_addElem_nodup {α : Type} [DecidableEq α] (l : List α) :
    ∀ acc : List α, acc.Nodup → (l.foldl addElem acc).Nodup := by
  induction l with
  | nil => intro acc h; simpa using h
  | cons x xs ih =>
      intro acc h
      rw [List.foldl_cons]
      exact ih _ (addElem_nodup acc x h)

theorem distinctList_toFinset {α : Type} [DecidableEq α] (l : List α) :
    (distinctList l).toFinset = l.toFinset := by
  unfold distinctList
  rw [foldl_addElem_toFinset]
  simp

theorem distinctList_nodup {α : Type} [DecidableEq α] (l : List α) :
    (distinctList l).Nodup :=
  foldl_addElem_nodup l [] List.nodup_nil

theorem distinctList_length {α : Type} [DecidableEq α] (l : List α) :
    (distinctList l).length = l.toFinset.card := by
  rw [← distinctList_toFinset, List.toFinset_card_of_nodup (distinctList_nodup l)]

theorem insertFold_names (qs : List (String × String)) :
    ∀ tbl : List (String × String × String),
      tblNames (qs.foldl (fun tb q => insertOrIgnoreManager tb q.1 q.2) tbl) =
        (qs.map Prod.fst).foldl addElem (tblNames tbl) := by
  induction qs with
  | nil => intro tbl; rfl
  | cons q qs ih =>
      intro tbl
      rw [List.foldl_cons, List.map_cons, List.foldl_cons, ih, tblNames_insert]

theorem mem_distinctList {α : Type} [DecidableEq α] {l : List α} {x : α} :
    x ∈ distinctList l ↔ x ∈ l := by
  rw [← List.mem_toFinset, distinctList_toFinset, List.mem_toFinset]

theorem distinct_pairs_fst_toFinset (f : List ProjectRecord) :
    ((distinctList (pairsOf f)).map Prod.fst).toFinset =
      (f.map (fun r => r.manager)).toFinset := by
  ext y
  simp only [List.mem_toFinset, List.mem_map]
  constructor
  · rintro ⟨q, hq, rfl⟩
    obtain ⟨r, hr, rfl⟩ := List.mem_map.mp (mem_distinctList.mp hq)
    exact ⟨r, hr, rfl⟩
  · rintro ⟨r, hr, rfl⟩
    exact ⟨(r.manager, r.department), mem_distinctList.mpr (List.mem_map.mpr ⟨r, hr, rfl⟩), rfl⟩

theorem loadFold_toFinset (files : List (List ProjectRecord)) :
    ∀ tbl : List (String × String × String),
      (tblNames (files.foldl
        (fun tb f =>
          (distinctList (pairsOf f)).foldl (fun tb q => insertOrIgnoreManager tb q.1 q.2) tb)
        tbl)).toFinset =
      (tblNames tbl).toFinset ∪ ((files.flatten).map (fun r => r.manager)).toFinset := by
  induction files with
  | nil => intro tbl; simp
  | cons f fs ih =>
      intro tbl
      rw [List.foldl_cons, ih, insertFold_names, foldl_addElem_toFinset,
        distinct_pairs_fst_toFinset, List.flatten_cons, List.map_append,
        List.toFinset_append, Finset.union_assoc]

theorem loadFold_nodup (files : List (List ProjectRecord)) :
    ∀ tbl : List (String × String × String), (tblNames tbl).Nodup →
      (tblNames (files.foldl
        (fun tb f =>
          (distinctList (pairsOf f)).foldl (fun tb q => insertOrIgnoreManager tb q.1 q.2) tb)
        tbl)).Nodup := by
  induction files with
  | nil => intro tbl h; exact h
  | cons f fs ih =>
      intro tbl h
      rw [List.foldl_cons]
      apply ih
      rw [insertFold_names]
      exact foldl_addElem_nodup _ _ h

/-- C8 as amended: after the load, COUNT(*) FROM managers equals the number
of distinct manager names observed across the loaded records (the UNIQUE
constraint is on Manager_Name alone); it equals the number of distinct
(manager, department) pairs only when no name occurs in two departments. -/
theorem managers_count_distinct_names (files : List (List ProjectRecord)) :
    managersCount files =
      (distinctList ((files.flatten).map (fun r => r.manager))).length := by
  have h1 : managersCount files = (tblNames (loadManagers files)).length := by
    unfold managersCount tblNames
    rw [List.length_map]
  have hn : (tblNames (loadManagers files)).Nodup :=
    loadFold_nodup files [] (by simp [tblNames])
  rw [h1, distinctList_length, ← List.toFinset_card_of_nodup hn]
  have hf := loadFold_toFinset files []
  unfold loadManagers
  rw [hf]
  simp [tblNames]

/-- The same manager name under two different departments. -/
def recAliceMkt : ProjectRecord :=
  { sampleRec with
    manager := "Alice Smith"
    department := "Marketing" }

/-- The same manager name under a second department. -/
def recAliceIT : ProjectRecord :=
  { sampleRec with
    manager := "Alice Smith"
    department := "IT"
    project_id := 3001 }

/-- The two files of the counterexample load. -/
def dupMgrFiles : List (List ProjectRecord) := [[recAliceMkt], [recAliceIT]]

/-- C8 counterexample: a loaded record set in which one manager name occurs
in two departments has two distinct (manager, department) pairs but only one
row in the managers table, so the claimed equality fails. -/
theorem managers_pair_count_counterexample :
    (distinctList ((dupMgrFiles.flatten).map (fun r => (r.manager, r.department)))).length = 2 ∧
    managersCount dupMgrFiles = 1 := by
  constructor <;> rfl

/-- One raw CSV row as the validator sees it after pandas read_csv
(validate_data.py): every field may be missing (NaN).  A date field is none
when missing, some none when present but not parseable by pd.to_datetime
(which coerces both cases to NaT), and some (some d) when it parses to day
number d. -/
structure ValRecord where
  projectId : Option ℤ
  department : Option String
  projectName : Option String
  manager : Option String
  startDate : Option (Option ℤ)
  endDate : Option (Option ℤ)
  plannedCost : Option ℚ
  actualCost : Option ℚ
  plannedCompletion : Option ℤ
  actualCompletion : Option ℤ
  status : Option String
  tasksTotal : Option ℤ
  tasksCompleted : Option ℤ
  plannedHours : Option ℤ
  actualHours : Option ℤ
deriving DecidableEq

/-- One loaded CSV file: its column-name list and its rows. -/
structure ValDataset where
  cols : List String
  rows : List ValRecord
deriving DecidableEq

/-- The expected_columns list of validate_data.py. -/
def expectedColumns : List String :=
  ["Project_ID", "Department", "Project_Name", "Manager",
   "Start_Date", "End_Date", "Planned_Cost", "Actual_Cost",
   "Planned_Completion", "Actual_Completion", "Status",
   "Tasks_Total", "Tasks_Completed", "Planned_Hours", "Actual_Hours"]

/-- The itemized issues of validate_data.py; each constructor corresponds to
one issues.append site.  All append sites are hard failures: the two warning
conditions (extreme cost variance and department budget range) only print
and never append. -/
inductive Issue
  | missingColumns (dept : String) (cs : List String)
  | extraColumns (dept : String) (cs : List String)
  | duplicateIds (ids : List (Option ℤ))
  | missingValues (c : String) (n : ℕ)
  | invalidDateFormats (s e : ℕ)
  | invalidDateRanges (n : ℕ)
  | negativeCosts
  | completionOutOfRange
  | invalidTaskCounts (n : ℕ)
  | invalidStatus
  | invalidHours
deriving DecidableEq

/-- Schema check for one department frame: missing and extra columns
relative to expected_columns. -/
def schemaIssuesFor (dept : String) (ds : ValDataset) : List Issue :=
  let missing := expectedColumns.filter (fun c => !(ds.cols.contains c))
  let extra := ds.cols.filter (fun c => !(expectedColumns.contains c))
  (if missing = [] then [] else [Issue.missingColumns dept missing]) ++
  (if extra = [] then [] else [Issue.extraColumns dept extra])

/-- Schema check across the three department frames, in script order. -/
def schemaIssues (m o i : ValDataset) : List Issue :=
  schemaIssuesFor ("Marketing") m ++ schemaIssuesFor ("Operations") o ++
    schemaIssuesFor ("IT") i

/-- The concatenated frame all_data = concat(marketing, operations, it). -/
def valRows (m o i : ValDataset) : List ValRecord := m.rows ++ o.rows ++ i.rows

/-- The Project_ID values that occur more than once (pandas duplicated with
keep=False; missing ids compare equal to each other, as NaN does there). -/
def duplicateIdList (rows : List ValRecord) : List (Option ℤ) :=
  let ids := rows.map (fun r => r.projectId)
  ids.filter (fun x => 1 < ids.count x)

def dupIssues (rows : List ValRecord) : List Issue :=
  if duplicateIdList rows = [] then [] else [Issue.duplicateIds (duplicateIdList rows)]

/-- The per-column missing-value counts of all_data.isnull().sum(), in
column order. -/
def missingPerColumn (rows : List ValRecord) : List (String × ℕ) :=
  [(("Project_ID"), (rows.filter (fun r => r.projectId.isNone)).length),
   (("Department"), (rows.filter (fun r => r.department.isNone)).length),
   (("Project_Name"), (rows.filter (fun r => r.projectName.isNone)).length),
   (("Manager"), (rows.filter (fun r => r.manager.isNone)).length),
   (("Start_Date"), (rows.filter (fun r => r.startDate.isNone)).length),
   (("End_Date"), (rows.filter (fun r => r.endDate.isNone)).length),
   (("Planned_Cost"), (rows.filter (fun r => r.plannedCost.isNone)).length),
   (("Actual_Cost"), (rows.filter (fun r => r.actualCost.isNone)).length),
   (("Planned_Completion"), (rows.filter (fun r => r.plannedCompletion.isNone)).length),
   (("Actual_Completion"), (rows.filter (fun r => r.actualCompletion.isNone)).length),
   (("Status"), (rows.filter (fun r => r.status.isNone)).length),
   (("Tasks_Total"), (rows.filter (fun r => r.tasksTotal.isNone)).length),
   (("Tasks_Completed"), (rows.filter (fun r => r.tasksCompleted.isNone)).length),
   (("Planned_Hours"), (rows.filter (fun r => r.plannedHours.isNone)).length),
   (("Actual_Hours"), (rows.filter (fun r => r.actualHours.isNone)).length)]

def totalMissing (rows : List ValRecord) : ℕ :=
  ((missingPerColumn rows).map (fun p => p.2)).sum

/-- One issue per column with a positive missing count, in column order. -/
def missingValueIssues (rows : List ValRecord) : List Issue :=
  ((missingPerColumn rows).filter (fun p => 0 < p.2)).map
    (fun p => Issue.missingValues p.1 p.2)

/-- pd.to_datetime(col, errors="coerce"): missing or unparseable is NaT. -/
def parsedStart (r : ValRecord) : Option ℤ := r.startDate.bind id

def parsedEnd (r : ValRecord) : Option ℤ := r.endDate.bind id

def invalidStartCount (rows : List ValRecord) : ℕ :=
  (rows.filter (fun r => (parsedStart r).isNone)).length

def invalidEndCount (rows : List ValRecord) : ℕ :=
  (rows.filter (fun r => (parsedEnd r).isNone)).length

def dateFormatIssues (rows : List ValRecord) : List Issue :=
  if 0 < invalidStartCount rows ∨ 0 < invalidEndCount rows then
    [Issue.invalidDateFormats (invalidStartCount rows) (invalidEndCount rows)]
  else []

/-- Rows with Duration_Days <= 0; a NaT date gives NaN duration, and the
pandas comparison NaN <= 0 is False, so such rows are not counted here. -/
def invalidDurationCount (rows : List ValRecord) : ℕ :=
  (rows.filter (fun r =>
    match parsedStart r, parsedEnd r with
    | some s, some e => decide (e - s ≤ 0)
    | _, _ => false)).length

def durationIssues (rows : List ValRecord) : List Issue :=
  if 0 < invalidDurationCount rows then
    [Issue.invalidDateRanges (invalidDurationCount rows)]
  else []

/-- Rows with Planned_Cost <= 0 (a missing cost compares False in pandas). -/
def nonpositivePlanned (rows : List ValRecord) : List ValRecord :=
  rows.filter (fun r =>
    match r.plannedCost with
    | some p => decide (p ≤ 0)
    | none => false)

def nonpositiveActual (rows : List ValRecord) : List ValRecord :=
  rows.filter (fun r =>
    match r.actualCost with
    | some a => decide (a ≤ 0)
    | none => false)

def costIssues (rows : List ValRecord) : List Issue :=
  if 0 < (nonpositivePlanned rows).length ∨ 0 < (nonpositiveActual rows).length then
    [Issue.negativeCosts]
  else []

/-- The warning-only extreme-variance condition
abs((Actual_Cost - Planned_Cost) / Planned_Cost * 100) > 50, with pandas
float semantics: NaN compares False, an infinity compares True. -/
def extremeVariance (r : ValRecord) : Bool :=
  match r.plannedCost, r.actualCost with
  | some p, some a =>
      match (pdiv (a - p) p).mulC 100 with
      | .num q => decide (50 < |q|)
      | .posInf => true
      | .negInf => true
      | .nan => false
  | _, _ => false

def extremeVarianceCount (rows : List ValRecord) : ℕ :=
  (rows.filter extremeVariance).length

def invalidPlannedCompletion (rows : List ValRecord) : List ValRecord :=
  rows.filter (fun r =>
    match r.plannedCompletion with
    | some c => decide (c < 0 ∨ 100 < c)
    | none => false)

def invalidActualCompletion (rows : List ValRecord) : List ValRecord :=
  rows.filter (fun r =>
    match r.actualCompletion with
    | some c => decide (c < 0 ∨ 100 < c)
    | none => false)

def completionIssues (rows : List ValRecord) : List Issue :=
  if 0 < (invalidPlannedCompletion rows).length ∨
      0 < (invalidActualCompletion rows).length then
    [Issue.completionOutOfRange]
  else []

def invalidTaskList (rows : List ValRecord) : List ValRecord :=
  rows.filter (fun r =>
    match r.tasksCompleted, r.tasksTotal with
    | some c, some t => decide (t < c)
    | _, _ => false)

def taskIssues (rows : List ValRecord) : List Issue :=
  if 0 < (invalidTaskList rows).length then
    [Issue.invalidTaskCounts (invalidTaskList rows).length]
  else []

/-- Status membership: ~isin(valid_statuses), so a missing status counts as
invalid. -/
def invalidStatusList (rows : List ValRecord) : List ValRecord :=
  rows.filter (fun r =>
    match r.status with
    | some s => !(validStatuses.contains s)
    | none => true)

def statusIssues (rows : List ValRecord) : List Issue :=
  if 0 < (invalidStatusList rows).length then [Issue.invalidStatus] else []

def invalidHoursList (rows : List ValRecord) : List ValRecord :=
  rows.filter (fun r =>
    (match r.plannedHours with
     | some p => decide (p ≤ 0)
     | none => false) ||
    (match r.actualHours with
     | some a => decide (a < 0)
     | none => false))

def hoursIssues (rows : List ValRecord) : List Issue :=
  if 0 < (invalidHoursList rows).length then [Issue.invalidHours] else []

/-- The warning-only department budget-range check of section 5 of the
script: planned cost outside the advisory (lo, hi) range of the department. -/
def budgetRangeWarnCount (ds : ValDataset) (lo hi : ℚ) : ℕ :=
  (ds.rows.filter (fun r =>
    match r.plannedCost with
    | some p => decide (p < lo ∨ hi < p)
    | none => false)).length

/-- The full itemized issue list, in the append order of the script. -/
def allIssues (m o i : ValDataset) : List Issue :=
  schemaIssues m o i ++ dupIssues (valRows m o i) ++
  missingValueIssues (valRows m o i) ++ dateFormatIssues (valRows m o i) ++
  durationIssues (valRows m o i) ++ costIssues (valRows m o i) ++
  completionIssues (valRows m o i) ++ taskIssues (valRows m o i) ++
  statusIssues (valRows m o i) ++ hoursIssues (valRows m o i)

/-- The validation_passed flag: it starts True and each of the ten hard
checks clears it on a violation; the two warning conditions never touch
it. -/
def validationPassed (m o i : ValDataset) : Bool :=
  decide (schemaIssues m o i = []) &&
  decide (duplicateIdList (valRows m o i) = []) &&
  decide (totalMissing (valRows m o i) = 0) &&
  decide (invalidStartCount (valRows m o i) = 0 ∧ invalidEndCount (valRows m o i) = 0) &&
  decide (invalidDurationCount (valRows m o i) = 0) &&
  decide ((nonpositivePlanned (valRows m o i)).length = 0 ∧
    (nonpositiveActual (valRows m o i)).length = 0) &&
  decide ((invalidPlannedCompletion (valRows m o i)).length = 0 ∧
    (invalidActualCompletion (valRows m o i)).length = 0) &&
  decide ((invalidTaskList (valRows m o i)).length = 0) &&
  decide ((invalidStatusList (valRows m o i)).length = 0) &&
  decide ((invalidHoursList (valRows m o i)).length = 0)

/-- The outcome of one run of validate_datasets over three loaded frames:
the returned boolean, the itemized issue list, and the two reported warning
counts. -/
structure ValResult where
  passed : Bool
  issues : List Issue
  extremeVarianceWarnings : ℕ
  budgetRangeWarnings : ℕ
deriving DecidableEq

/-- validate_datasets (validate_data.py) on three loaded frames: runs all
checks without short-circuiting, returns validation_passed, and reports the
itemized issues and the warning counts (departments carry the advisory
ranges Marketing (10000, 50000), Operations (15000, 75000),
IT (20000, 100000)). -/
def validate_datasets (m o i : ValDataset) : ValResult where
  passed := validationPassed m o i
  issues := allIssues m o i
  extremeVarianceWarnings := extremeVarianceCount (valRows m o i)
  budgetRangeWarnings :=
    budgetRangeWarnCount m 10000 50000 + budgetRangeWarnCount o 15000 75000 +
      budgetRangeWarnCount i 20000 100000

theorem ite_singleton_eq_nil {α : Type} {c : Prop} [Decidable c] (x : α) :
    ((if c then [x] else []) = []) ↔ ¬ c := by
  split_ifs with h <;> simp [h]

theorem ite_nil_singleton_eq_nil {α : Type} {c : Prop} [Decidable c] (x : α) :
    ((if c then [] else [x]) = []) ↔ c := by
  split_ifs with h <;> simp [h]

theorem missingValueIssues_eq_nil_iff (rows : List ValRecord) :
    missingValueIssues rows = [] ↔ totalMissing rows = 0 := by
  unfold missingValueIssues totalMissing
  rw [List.map_eq_nil_iff, List.filter_eq_nil_iff, List.sum_eq_zero_iff]
  constructor
  · intro h x hx
    obtain ⟨p, hp, rfl⟩ := List.mem_map.mp hx
    have hc := h p hp
    simp only [decide_eq_true_eq] at hc
    omega
  · intro h p hp
    simp only [decide_eq_true_eq]
    have hc := h p.2 (List.mem_map.mpr ⟨p, hp, rfl⟩)
    omega

theorem dupIssues_eq_nil_iff (rows : List ValRecord) :
    dupIssues rows = [] ↔ duplicateIdList rows = [] := by
  unfold dupIssues
  rw [ite_nil_singleton_eq_nil]

theorem dateFormatIssues_eq_nil_iff (rows : List ValRecord) :
    dateFormatIssues rows = [] ↔
      invalidStartCount rows = 0 ∧ invalidEndCount rows = 0 := by
  unfold dateFormatIssues
  rw [ite_singleton_eq_nil]
  omega

theorem durationIssues_eq_nil_iff (rows : List ValRecord) :
    durationIssues rows = [] ↔ invalidDurationCount rows = 0 := by
  unfold durationIssues
  rw [ite_singleton_eq_nil]
  omega

theorem costIssues_eq_nil_iff (rows : List ValRecord) :
    costIssues rows = [] ↔
      (nonpositivePlanned rows).length = 0 ∧ (nonpositiveActual rows).length = 0 := by
  unfold costIssues
  rw [ite_singleton_eq_nil]
  omega

theorem completionIssues_eq_nil_iff (rows : List ValRecord) :
    completionIssues rows = [] ↔
      (invalidPlannedCompletion rows).length = 0 ∧
        (invalidActualCompletion rows).length = 0 := by
  unfold completionIssues
  rw [ite_singleton_eq_nil]
  omega

theorem taskIssues_eq_nil_iff (rows : List ValRecord) :
    taskIssues rows = [] ↔ (invalidTaskList rows).length = 0 := by
  unfold taskIssues
  rw [ite_singleton_eq_nil]
  omega

theorem statusIssues_eq_nil_iff (rows : List ValRecord) :
    statusIssues rows = [] ↔ (invalidStatusList rows).length = 0 := by
  unfold statusIssues
  rw [ite_singleton_eq_nil]
  omega

theorem hoursIssues_eq_nil_iff (rows : List ValRecord) :
    hoursIssues rows = [] ↔ (invalidHoursList rows).length = 0 := by
  unfold hoursIssues
  rw [ite_singleton_eq_nil]
  omega

/-- A fully populated valid row that triggers both warning conditions:
planned cost 100 is far below the Marketing advisory range and the cost
variance is 900 percent. -/
def warnRow : ValRecord where
  projectId := some 1001
  department := some ("Marketing")
  projectName := some ("Digital Ad Campaign")
  manager := some ("John Smith")
  startDate := some (some 0)
  endDate := some (some 10)
  plannedCost := some 100
  actualCost := some 1000
  plannedCompletion := some 100
  actualCompletion := some 100
  status := some ("Completed")
  tasksTotal := some 10
  tasksCompleted := some 10
  plannedHours := some 100
  actualHours := some 100

/-- The Marketing frame of the warning run. -/
def warnFrame : ValDataset := ⟨expectedColumns, [warnRow]⟩

/-- A department frame with the expected columns and no rows. -/
def emptyFrame : ValDataset := ⟨expectedColumns, []⟩

/-- C7: the overall result of validate_datasets is PASS exactly when the
itemized list of hard violations is empty, for every input record set; and
the two warning-level findings never cause a FAIL, witnessed by a run whose
only findings are an extreme cost variance and an out-of-range planned cost
and whose result is PASS with an empty issue list. -/
theorem validator_pass_iff_no_hard_violations :
    (∀ m o i : ValDataset,
      ((validate_datasets m o i).passed = true ↔ (validate_datasets m o i).issues = [])) ∧
    ((validate_datasets warnFrame emptyFrame emptyFrame).passed = true ∧
      (validate_datasets warnFrame emptyFrame emptyFrame).issues = [] ∧
      0 < (validate_datasets warnFrame emptyFrame emptyFrame).extremeVarianceWarnings ∧
      0 < (validate_datasets warnFrame emptyFrame emptyFrame).budgetRangeWarnings) := by
  constructor
  · intro m o i
    show validationPassed m o i = true ↔ allIssues m o i = []
    unfold validationPassed allIssues
    simp only [Bool.and_eq_true, decide_eq_true_eq, List.append_eq_nil,
      missingValueIssues_eq_nil_iff, dupIssues_eq_nil_iff, dateFormatIssues_eq_nil_iff,
      durationIssues_eq_nil_iff, costIssues_eq_nil_iff, completionIssues_eq_nil_iff,
      taskIssues_eq_nil_iff, statusIssues_eq_nil_iff, hoursIssues_eq_nil_iff]
  · refine ⟨by decide, by decide, ?_, by decide⟩
    have hev : extremeVariance warnRow = true := by
      have h0 : extremeVariance warnRow =
          decide (50 < |((1000 : ℚ) - 100) / 100 * 100|) := rfl
      rw [h0, decide_eq_true_eq]
      have e1 : ((1000 : ℚ) - 100) / 100 * 100 = 900 := by norm_num
      rw [e1, abs_of_nonneg (by norm_num : (0 : ℚ) ≤ 900)]
      norm_num
    show 0 < extremeVarianceCount (valRows warnFrame emptyFrame emptyFrame)
    simp [extremeVarianceCount, valRows, warnFrame, emptyFrame, List.filter_cons, hev]

/-- The result of the loading phase of validate_datasets: False when any of
the three CSV files is absent (the FileNotFoundError branch returns False),
otherwise the boolean computed over the loaded frames. -/
def validateMainResult (m o i : Option ValDataset) : Bool :=
  match m, o, i with
  | some a, some b, some c => (validate_datasets a b c).passed
  | _, _, _ => false

/-- The process exit status of running validate_data.py: the main block
calls validate_datasets() and discards its boolean result, so the
interpreter falls off the end of the script and exits with status 0. -/
def validateMainExitCode (m o i : Option ValDataset) : ℕ :=
  let _ := validateMainResult m o i
  0

/-- A frame containing a record with tasks_completed greater than
tasks_total, a hard violation. -/
def badTaskRow : ValRecord :=
  { warnRow with
    tasksCompleted := some 12
    tasksTotal := some 10
    plannedCost := some 20000
    actualCost := some 20000 }

/-- The frame of the failing validation run. -/
def badTaskFrame : ValDataset := ⟨expectedColumns, [badTaskRow]⟩

/-- C3: the validation entry point exits with status 0 even when every input
CSV file is absent, and even when the loaded data fails validation: the main
block discards the boolean returned by validate_datasets, contradicting the
claimed non-zero exit status. -/
theorem validate_entrypoint_exit_always_zero :
    validateMainExitCode none none none = 0 ∧
    validateMainResult none none none = false ∧
    validateMainExitCode (some badTaskFrame) (some emptyFrame) (some emptyFrame) = 0 ∧
    validateMainResult (some badTaskFrame) (some emptyFrame) (some emptyFrame) = false := by
  refine ⟨rfl, rfl, rfl, by decide⟩

end KPI
